import Mathlib

/-!
Verification development for the technest e-commerce backend.

The definitions below are a shallow embedding of the cart, wishlist and
checkout controllers (src/controllers/cart.controller.js,
wishlist.controller.js, checkout.controller.js, products.controller.js)
together with the data model of the mongoose schemas. Persistence is
modelled as explicit state passing over a record of collections; mongoose
findOneAndUpdate is modelled as an update of the first matching document.
Prices are JS numbers carrying currency amounts; they are modelled as
rationals.
-/

namespace TechNest

/-- A catalog product (ProductSchema, src/models/products.js): name, price,
stock and an image list. Fields not read by the embedded controllers are
omitted. -/
structure Product where
  id : Nat
  name : String
  price : ℚ
  stock : Nat
  images : List String
deriving Repr, DecidableEq

/-- One cart line item: a product reference and a quantity. The cart schema
file itself (models/cart.js) is not in the sources; the shape
(product, quantity) is the one every controller reads and writes and the one
the spec's data model gives the Cart. -/
structure CartItem where
  product : Nat
  quantity : Nat
deriving Repr, DecidableEq

/-- A cart document: owning user, line items, and the stored derived total. -/
structure Cart where
  id : Nat
  user : Nat
  products : List CartItem
  totalPrice : ℚ
deriving Repr, DecidableEq

/-- A wishlist entry (subdocument with a product reference). -/
structure WishlistEntry where
  product : Nat
deriving Repr, DecidableEq

/-- A wishlist document: owning user and entries. -/
structure Wishlist where
  user : Nat
  products : List WishlistEntry
deriving Repr, DecidableEq

/-- Checkout record status (CheckoutSchema enum in src/unnamed/part_009). -/
inductive CheckoutStatus where
  | pending
  | processing
  | completed
  | failed
  | cancelled
deriving Repr, DecidableEq

/-- The status string as it appears in the database and in error messages. -/
def CheckoutStatus.str : CheckoutStatus → String
  | .pending => "pending"
  | .processing => "processing"
  | .completed => "completed"
  | .failed => "failed"
  | .cancelled => "cancelled"

/-- One snapshot line item stored on a checkout record (items subdocument of
CheckoutSchema): product reference, name, unit price, quantity, image. -/
structure SnapshotItem where
  product : Nat
  name : String
  price : ℚ
  quantity : Nat
  image : String
deriving Repr, DecidableEq

/-- Payment confirmation details stored on completion. The poll path stores
an ip address, the webhook path does not. -/
structure PaymentDetails where
  gateway : String
  transactionId : String
  paidAt : String
  channel : String
  currency : String
  ipAddress : Option String
deriving Repr, DecidableEq

/-- A checkout record (CheckoutSchema, src/unnamed/part_009, second schema
revision: the one with the items snapshot, status and paymentReference). -/
structure CheckoutRecord where
  id : Nat
  user : Nat
  cart : Nat
  items : List SnapshotItem
  totalPrice : ℚ
  paymentMethod : String
  shippingAddress : String
  paymentReference : String
  status : CheckoutStatus
  paymentDetails : Option PaymentDetails
deriving Repr, DecidableEq

/-- The persistent state: the product catalog and the cart, wishlist and
checkout collections. -/
structure St where
  catalog : List Product
  carts : List Cart
  wishlists : List Wishlist
  checkouts : List CheckoutRecord
deriving Repr, DecidableEq

/-- An HTTP-style response: status code, success flag, optional error
message. -/
structure Resp where
  status : Nat
  success : Bool
  error : Option String
deriving Repr, DecidableEq

/-- Update the first element satisfying p (mongoose findOneAndUpdate /
fetch-mutate-save on the first match of findOne). -/
def updateFirst (p : α → Bool) (f : α → α) : List α → List α
  | [] => []
  | x :: xs => if p x then f x :: xs else x :: updateFirst p f xs

/-- Fresh id for a lazily created cart document. -/
def freshCartId (s : St) : Nat :=
  s.carts.foldl (fun m c => max m c.id) 0 + 1

/-- Fresh id for a newly created checkout record. -/
def freshCheckoutId (s : St) : Nat :=
  s.checkouts.foldl (fun m r => max m r.id) 0 + 1

/-- The updated line-item list and recomputed total of addToCart
(src/controllers/cart.controller.js lines 40-55): replace the quantity of an
existing line or push a new line, then reduce over the lines with
product.price * item.quantity where product is the single product just looked
up - the same price is applied to every line. -/
def addItemAndTotal (product : Product) (productId quantity : Nat)
    (items : List CartItem) : List CartItem × ℚ :=
  let products' :=
    if items.any (fun it => it.product == productId) then
      updateFirst (fun it => it.product == productId)
        (fun it => { it with quantity := quantity }) items
    else
      items ++ [{ product := productId, quantity := quantity }]
  (products', products'.foldl (fun t it => t + product.price * (it.quantity : ℚ)) 0)

/-- Embeds addToCart (src/controllers/cart.controller.js lines 7-70):
validate the product and its stock, find or lazily create the user's cart,
replace or push the line item, recompute the stored total, save. -/
def addToCart (s : St) (userId productId quantity : Nat) : St × Resp :=
  match s.catalog.find? (fun p => p.id == productId) with
  | none => (s, ⟨404, false, some "Product not found"⟩)
  | some product =>
    if product.stock < quantity then
      (s, ⟨400, false, some "Requested quantity not available"⟩)
    else
      match s.carts.find? (fun c => c.user == userId) with
      | none =>
        let pt := addItemAndTotal product productId quantity []
        ({ s with carts := s.carts ++
            [{ id := freshCartId s, user := userId,
               products := pt.1, totalPrice := pt.2 }] },
         ⟨200, true, none⟩)
      | some cart =>
        let pt := addItemAndTotal product productId quantity cart.products
        let carts' := updateFirst (fun c => c.user == userId)
          (fun c => { c with products := pt.1, totalPrice := pt.2 }) s.carts
        ({ s with carts := carts' }, ⟨200, true, none⟩)

/-- Embeds updateCartQuantity (src/controllers/cart.controller.js lines
142-199): validate the quantity, find the cart and the line, check stock,
replace the line quantity and recompute the stored total with the single
looked-up product's price applied to every line. A line whose product was
deleted from the catalog makes the handler throw (modelled as a 500 with no
state change). -/
def updateCartQuantity (s : St) (userId productId quantity : Nat) : St × Resp :=
  if quantity < 1 then
    (s, ⟨400, false, some "Please provide a valid quantity"⟩)
  else
    match s.carts.find? (fun c => c.user == userId) with
    | none => (s, ⟨404, false, some "Cart not found"⟩)
    | some cart =>
      if cart.products.any (fun it => it.product == productId) then
        match s.catalog.find? (fun p => p.id == productId) with
        | none => (s, ⟨500, false, some "Server Error"⟩)
        | some product =>
          if product.stock < quantity then
            (s, ⟨400, false, some "Requested quantity not available"⟩)
          else
            let products' := updateFirst (fun it => it.product == productId)
              (fun it => { it with quantity := quantity }) cart.products
            let total := products'.foldl
              (fun t it => t + product.price * (it.quantity : ℚ)) 0
            let carts' := updateFirst (fun c => c.user == userId)
              (fun c => { c with products := products', totalPrice := total })
              s.carts
            ({ s with carts := carts' }, ⟨200, true, none⟩)
      else
        (s, ⟨404, false, some "Product not found in cart"⟩)

/-- The per-line totals computed by removeFromCart (lines 116-123): each
remaining line's product is looked up in the catalog and its price times the
line quantity taken; a missing product makes the reduce throw, modelled as
none. -/
def lineTotals (catalog : List Product) : List CartItem → Option (List ℚ)
  | [] => some []
  | it :: rest =>
    match catalog.find? (fun p => p.id == it.product) with
    | none => none
    | some p =>
      match lineTotals catalog rest with
      | none => none
      | some ts => some (p.price * (it.quantity : ℚ) :: ts)

/-- Embeds removeFromCart (src/controllers/cart.controller.js lines 99-137):
filter the line out, then recompute the total by looking every remaining
line's product up in the catalog (a missing product makes the handler throw,
modelled as a 500 with no state change). -/
def removeFromCart (s : St) (userId productId : Nat) : St × Resp :=
  match s.carts.find? (fun c => c.user == userId) with
  | none => (s, ⟨404, false, some "Cart not found"⟩)
  | some cart =>
    let products' := cart.products.filter (fun it => !(it.product == productId))
    match lineTotals s.catalog products' with
    | none => (s, ⟨500, false, some "Server Error"⟩)
    | some totals =>
      let total := totals.foldl (fun t x => t + x) 0
      let carts' := updateFirst (fun c => c.user == userId)
        (fun c => { c with products := products', totalPrice := total })
        s.carts
      ({ s with carts := carts' }, ⟨200, true, none⟩)

/-- The spec's cart-total invariant, following the spec's words: sum over
line items of (current catalog price of the line's product times quantity).
Stated for comparison against the totals the code stores. -/
def specCartTotal (catalog : List Product) (items : List CartItem) : ℚ :=
  items.foldl (fun t it =>
    t + ((catalog.find? (fun p => p.id == it.product)).elim 0 (fun p => p.price))
      * (it.quantity : ℚ)) 0

/-- Embeds addToWishlist (src/controllers/wishlist.controller.js lines 8-60):
validate the product, find or lazily create the user's wishlist, then
remove the product if present (mongoose pull removes every matching entry)
and push it otherwise. -/
def addToWishlist (s : St) (userId productId : Nat) : St × Resp :=
  match s.catalog.find? (fun p => p.id == productId) with
  | none => (s, ⟨404, false, some "Product not found"⟩)
  | some _ =>
    match s.wishlists.find? (fun w => w.user == userId) with
    | none =>
      let entries :=
        if ([] : List WishlistEntry).any (fun e => e.product == productId) then
          ([] : List WishlistEntry).filter (fun e => !(e.product == productId))
        else
          [{ product := productId }]
      ({ s with wishlists := s.wishlists ++ [{ user := userId, products := entries }] },
       ⟨200, true, none⟩)
    | some w =>
      let entries :=
        if w.products.any (fun e => e.product == productId) then
          w.products.filter (fun e => !(e.product == productId))
        else
          w.products ++ [{ product := productId }]
      let wishlists' := updateFirst (fun x => x.user == userId)
        (fun x => { x with products := entries }) s.wishlists
      ({ s with wishlists := wishlists' }, ⟨200, true, none⟩)

/-- Whether the user's wishlist currently contains the product. -/
def wishlistHas (s : St) (userId productId : Nat) : Bool :=
  match s.wishlists.find? (fun w => w.user == userId) with
  | none => false
  | some w => w.products.any (fun e => e.product == productId)

/-- The payment data assembled by initializeCheckout
(src/controllers/checkout.controller.js lines 52-67) and passed to the
gateway: the amount is the cart's stored total converted to the minor
currency unit with Math.round. -/
structure PaymentData where
  email : String
  amount : ℤ
  userId : Nat
  cartId : Nat
deriving Repr, DecidableEq

/-- JS Math.round: round half toward positive infinity. -/
def jsRound (q : ℚ) : ℤ := ⌊q + 1 / 2⌋

/-- Builds the paymentData object of initializeCheckout. -/
def buildPaymentData (email : String) (userId : Nat) (cart : Cart) : PaymentData :=
  { email := email, amount := jsRound (cart.totalPrice * 100),
    userId := userId, cartId := cart.id }

/-- The gateway's answer to a transaction initialization. -/
structure GatewayInitResp where
  reference : String
  authorizationUrl : String
  accessCode : String
deriving Repr, DecidableEq

/-- The snapshot built by initializeCheckout (lines 36-49): each cart line
resolved against the catalog into product reference, name, price, quantity
and first image; a line whose product is gone makes the whole map throw. -/
def buildSnapshot (catalog : List Product) : List CartItem →
    Option (List SnapshotItem)
  | [] => some []
  | it :: rest =>
    match catalog.find? (fun p => p.id == it.product) with
    | none => none
    | some p =>
      match buildSnapshot catalog rest with
      | none => none
      | some tail =>
        some ({ product := p.id, name := p.name, price := p.price,
                quantity := it.quantity, image := p.images.headD "" } :: tail)

/-- Embeds initializeCheckout (src/controllers/checkout.controller.js lines
11-95): validate the request fields, load the cart, reject when absent or
empty, build the snapshot, call the gateway (a gateway failure throws and
nothing is persisted), then create the pending checkout record with the
snapshot, the cart's stored total and the gateway reference. -/
def initializeCheckout (s : St) (userId : Nat)
    (email shippingAddress paymentMethod : String)
    (gateway : PaymentData → Option GatewayInitResp) : St × Resp :=
  if shippingAddress == "" || paymentMethod == "" then
    (s, ⟨400, false, some "Shipping address and payment method are required"⟩)
  else
    match s.carts.find? (fun c => c.user == userId) with
    | none => (s, ⟨400, false, some "Cart is empty"⟩)
    | some cart =>
      if cart.products.isEmpty then
        (s, ⟨400, false, some "Cart is empty"⟩)
      else
        match buildSnapshot s.catalog cart.products with
        | none =>
          (s, ⟨500, false, some "One or more products in cart are no longer available"⟩)
        | some items =>
          match gateway (buildPaymentData email userId cart) with
          | none => (s, ⟨500, false, some "Gateway error"⟩)
          | some pay =>
            let record : CheckoutRecord :=
              { id := freshCheckoutId s, user := userId, cart := cart.id,
                items := items, totalPrice := cart.totalPrice,
                paymentMethod := paymentMethod,
                shippingAddress := shippingAddress,
                paymentReference := pay.reference,
                status := .pending, paymentDetails := none }
            ({ s with checkouts := s.checkouts ++ [record] }, ⟨201, true, none⟩)

/-- The gateway's report about a reference: transaction status and the
confirmation details the controllers copy into paymentDetails. -/
structure GatewayVerifyData where
  reference : String
  status : String
  transactionId : String
  paidAt : String
  channel : String
  currency : String
  ipAddress : String
deriving Repr, DecidableEq

/-- Clearing a cart document: products emptied, total zeroed
(Cart.findOneAndUpdate with products [] and totalPrice 0). -/
def clearCartDoc (c : Cart) : Cart :=
  { c with products := [], totalPrice := 0 }

/-- Embeds verifyPayment (src/controllers/checkout.controller.js lines
100-182): on a gateway success report, unconditionally set the record with
that reference to completed with payment details and clear its originating
cart; on any other report, unconditionally set the record to failed. -/
def verifyPayment (s : St) (reference : String) (payment : GatewayVerifyData) :
    St × Resp :=
  if reference == "" then
    (s, ⟨400, false, some "Payment reference is required"⟩)
  else if payment.status == "success" then
    match s.checkouts.find? (fun r => r.paymentReference == reference) with
    | none => (s, ⟨404, false, some "Checkout not found"⟩)
    | some r =>
      let details : PaymentDetails :=
        { gateway := "paystack", transactionId := payment.transactionId,
          paidAt := payment.paidAt, channel := payment.channel,
          currency := payment.currency, ipAddress := some payment.ipAddress }
      let checkouts' := updateFirst (fun x => x.paymentReference == reference)
        (fun x => { x with status := .completed, paymentDetails := some details })
        s.checkouts
      let carts' := updateFirst (fun c => c.id == r.cart) clearCartDoc s.carts
      ({ s with checkouts := checkouts', carts := carts' }, ⟨200, true, none⟩)
  else
    let checkouts' := updateFirst (fun x => x.paymentReference == reference)
      (fun x => { x with status := .failed }) s.checkouts
    ({ s with checkouts := checkouts' },
     ⟨400, false, some "Payment verification failed"⟩)

/-- An inbound webhook body: event name plus charge data. -/
structure WebhookEvent where
  event : String
  data : GatewayVerifyData
deriving Repr, DecidableEq

/-- The JSON serialization of the webhook body that the handler feeds to the
HMAC (JSON.stringify of the parsed body). Field order is fixed, so the
encoding is injective enough for the signature check. -/
def stringifyEvent (e : WebhookEvent) : String :=
  "event:" ++ e.event ++ ";reference:" ++ e.data.reference ++ ";status:"
    ++ e.data.status ++ ";id:" ++ e.data.transactionId ++ ";paid_at:"
    ++ e.data.paidAt ++ ";channel:" ++ e.data.channel ++ ";currency:"
    ++ e.data.currency

/-- Embeds webhookHandler (src/controllers/checkout.controller.js lines
187-236): compare the HMAC-SHA512 of the serialized body under the secret
with the signature header and reject on mismatch before touching any state;
on a charge.success event, unconditionally set the record with the event's
reference to completed and clear its originating cart; always acknowledge
with 200 otherwise. The HMAC itself is an external primitive, passed as a
function. -/
def webhookHandler (s : St) (hmac : String → String → String) (secret : String)
    (body : WebhookEvent) (signatureHeader : String) : St × Resp :=
  if (hmac secret (stringifyEvent body) == signatureHeader) = false then
    (s, ⟨400, false, some "Invalid signature"⟩)
  else if body.event == "charge.success" then
    match s.checkouts.find? (fun r => r.paymentReference == body.data.reference) with
    | none => (s, ⟨200, true, none⟩)
    | some r =>
      let details : PaymentDetails :=
        { gateway := "paystack", transactionId := body.data.transactionId,
          paidAt := body.data.paidAt, channel := body.data.channel,
          currency := body.data.currency, ipAddress := none }
      let checkouts' := updateFirst
        (fun x => x.paymentReference == body.data.reference)
        (fun x => { x with status := .completed, paymentDetails := some details })
        s.checkouts
      let carts' := updateFirst (fun c => c.id == r.cart) clearCartDoc s.carts
      ({ s with checkouts := checkouts', carts := carts' }, ⟨200, true, none⟩)
  else
    (s, ⟨200, true, none⟩)

/-- Embeds getCheckoutById (src/controllers/checkout.controller.js lines
241-264): a pure read of the record owned by the caller; no state change. -/
def getCheckoutById (s : St) (checkoutId userId : Nat) : Option CheckoutRecord :=
  s.checkouts.find? (fun r => r.id == checkoutId && r.user == userId)

/-- Embeds cancelCheckout (src/controllers/checkout.controller.js lines
304-337): not found when no record matches id and owner; rejected with a
message naming the current status when not pending; otherwise the record is
saved as cancelled. Carts are never touched. -/
def cancelCheckout (s : St) (checkoutId userId : Nat) : St × Resp :=
  match s.checkouts.find? (fun r => r.id == checkoutId && r.user == userId) with
  | none => (s, ⟨404, false, some "Checkout not found"⟩)
  | some r =>
    if r.status = .pending then
      let checkouts' := updateFirst
        (fun x => x.id == checkoutId && x.user == userId)
        (fun x => { x with status := .cancelled }) s.checkouts
      ({ s with checkouts := checkouts' }, ⟨200, true, none⟩)
    else
      (s, ⟨400, false,
        some ("Cannot cancel checkout with status: " ++ r.status.str)⟩)

/-- Embeds updateProduct (src/controllers/products.controller.js lines
240-270) restricted to a price change: findByIdAndUpdate on the catalog;
no other collection is touched. -/
def updateProductPrice (s : St) (productId : Nat) (newPrice : ℚ) : St × Resp :=
  match s.catalog.find? (fun p => p.id == productId) with
  | none => (s, ⟨404, false, some "Product not found"⟩)
  | some _ =>
    let catalog' := updateFirst (fun p => p.id == productId)
      (fun p => { p with price := newPrice }) s.catalog
    ({ s with catalog := catalog' }, ⟨200, true, none⟩)

/-- The spec's checkout total, following the spec's words: sum over the
snapshot line items of (quantity times snapshot unit price). Stated for
comparison against the total the code stores on the record. -/
def specSnapshotTotal (items : List SnapshotItem) : ℚ :=
  items.foldl (fun t it => t + (it.quantity : ℚ) * it.price) 0

/-! Concrete instances used as test vectors below. -/

/-- A completed checkout record for reference R1 funded by cart 1. -/
def recDone : CheckoutRecord :=
  { id := 1, user := 1, cart := 1, items := [], totalPrice := 20,
    paymentMethod := "paystack", shippingAddress := "addr",
    paymentReference := "R1", status := .completed, paymentDetails := none }

/-- State after a first confirmation of R1: the record is completed and the
user has since put product 2 back into cart 1. -/
def stDone : St :=
  { catalog := [], carts := [⟨1, 1, [⟨2, 1⟩], 20⟩], wishlists := [],
    checkouts := [recDone] }

/-- A redelivered charge.success webhook event for reference R1. -/
def evR1 : WebhookEvent :=
  { event := "charge.success",
    data := ⟨"R1", "success", "t1", "now", "card", "NGN", "ip"⟩ }

/-- State with two records in terminal states: R1 cancelled, R2 completed. -/
def stTerm : St :=
  { catalog := [], carts := [], wishlists := [],
    checkouts :=
      [{ recDone with status := .cancelled },
       { recDone with id := 2, paymentReference := "R2" }] }

/-- A gateway success report for reference R1. -/
def payR1succ : GatewayVerifyData := ⟨"R1", "success", "t", "n", "c", "NGN", "ip"⟩

/-- A gateway failure report for reference R2. -/
def payR2fail : GatewayVerifyData := ⟨"R2", "failed", "t", "n", "c", "NGN", "ip"⟩

/-- A two-product catalog with distinct prices 10 and 20. -/
def twoCatalog : List Product := [⟨1, "A", 10, 5, ["a"]⟩, ⟨2, "B", 20, 5, ["b"]⟩]

/-- State whose cart holds one unit of product 1, total 10; adding product 2
will exercise the total recomputation over two distinct prices. -/
def stTwo : St :=
  { catalog := twoCatalog, carts := [⟨1, 1, [⟨1, 1⟩], 10⟩], wishlists := [],
    checkouts := [] }

/-- The cart of stStale: two units of product 1, stored total 30, stale with
respect to the catalog price 10. -/
def cartStale : Cart := ⟨1, 1, [⟨1, 2⟩], 30⟩

/-- State whose cart total (30) is stale: the catalog now prices the two
units at 10 each. -/
def stStale : St :=
  { catalog := [⟨1, "A", 10, 5, ["img"]⟩], carts := [cartStale],
    wishlists := [], checkouts := [] }

/-- A gateway that accepts any payment data with reference R1. -/
def gwOk : PaymentData → Option GatewayInitResp := fun _ => some ⟨"R1", "u", "a"⟩

/-- State whose cart exists but has no line items. -/
def stEmptyCart : St :=
  { catalog := twoCatalog, carts := [⟨1, 1, [], 0⟩], wishlists := [],
    checkouts := [] }

/-- State with product 1 in the catalog and no wishlist yet. -/
def stNoWish : St :=
  { catalog := [⟨1, "A", 10, 5, ["a"]⟩], carts := [], wishlists := [],
    checkouts := [] }

/-- State whose cart already holds one unit of product 1 (stock 5). -/
def stHasLine : St :=
  { catalog := [⟨1, "A", 10, 5, ["a"]⟩], carts := [⟨1, 1, [⟨1, 1⟩], 10⟩],
    wishlists := [], checkouts := [] }

/-! Helper lemmas about updateFirst and list scanning. -/

theorem updateFirst_length (p : α → Bool) (f : α → α) (l : List α) :
    (updateFirst p f l).length = l.length := by
  induction l with
  | nil => rfl
  | cons a as ih => cases h : p a <;> simp [updateFirst, h, ih]

theorem find?_updateFirst (p : α → Bool) (f : α → α) (l : List α) (x : α)
    (hx : l.find? p = some x) (hf : p (f x) = true) :
    (updateFirst p f l).find? p = some (f x) := by
  induction l with
  | nil => simp at hx
  | cons a as ih =>
    cases h : p a with
    | true =>
      rw [List.find?_cons, h] at hx
      obtain rfl : a = x := by simpa using hx
      simp [updateFirst, h, List.find?_cons, hf]
    | false =>
      rw [List.find?_cons, h] at hx
      simp [updateFirst, h, List.find?_cons, ih hx]

theorem updateFirst_map_eq (g : α → β) (p : α → Bool) (f : α → α)
    (h : ∀ a, g (f a) = g a) (l : List α) :
    (updateFirst p f l).map g = l.map g := by
  induction l with
  | nil => rfl
  | cons a as ih => cases hp : p a <;> simp [updateFirst, hp, ih, h]

theorem find?_append_of_none (p : α → Bool) (l₁ l₂ : List α)
    (h : l₁.find? p = none) : (l₁ ++ l₂).find? p = l₂.find? p := by
  induction l₁ with
  | nil => rfl
  | cons a as ih =>
    cases hp : p a with
    | true => rw [List.find?_cons, hp] at h; exact absurd h (by simp)
    | false =>
      rw [List.find?_cons, hp] at h
      rw [List.cons_append, List.find?_cons, hp]
      exact ih h

theorem any_filter_not (p : α → Bool) (l : List α) :
    (l.filter (fun a => !(p a))).any p = false := by
  induction l with
  | nil => rfl
  | cons a as ih => cases hp : p a <;> simp [List.filter_cons, hp, ih]

theorem any_imp_find?_isSome (p : α → Bool) (l : List α) (h : l.any p = true) :
    ∃ x, l.find? p = some x := by
  induction l with
  | nil => simp at h
  | cons a as ih =>
    cases hp : p a with
    | true => exact ⟨a, by simp [List.find?_cons, hp]⟩
    | false =>
      simp [List.any_cons, hp] at h
      obtain ⟨x, hx⟩ := ih (by simpa using h)
      exact ⟨x, by simp [List.find?_cons, hp, hx]⟩

/-! Claim theorems. -/

/-- C3: the claim says that after every cart mutation the stored total
equals the sum over the line items of (catalog price of the line's product
times quantity), in particular with two distinct products of different
prices. The code violates this: addToCart recomputes the total with the one
product just looked up priced into every line, so adding product 2
(price 20) to a cart holding product 1 (price 10) stores total 40 while the
invariant total is 30. -/
theorem C3_addToCart_total_breaks_invariant :
    (addToCart stTwo 1 2 1).1.carts.map Cart.totalPrice = [40] ∧
    (addToCart stTwo 1 2 1).1.carts.map
      (fun c => specCartTotal stTwo.catalog c.products) = [30] ∧
    (40 : ℚ) ≠ 30 := by
  refine ⟨?_, ?_, by norm_num⟩ <;>
    · simp [addToCart, stTwo, twoCatalog, addItemAndTotal, updateFirst,
        specCartTotal, List.find?, freshCartId]
      norm_num

/-- C1: the claim says a second confirmation signal for a reference whose
record is already completed performs no further mutation, in particular does
not clear the cart again. The code has no status guard: redelivering the
charge.success webhook for the completed record R1 clears cart 1 again,
wiping the item the user added after the first confirmation. -/
theorem C1_redelivered_confirmation_clears_cart_again :
    stDone.checkouts.map CheckoutRecord.status = [.completed] ∧
    stDone.carts.map Cart.products = [[⟨2, 1⟩]] ∧
    (webhookHandler stDone (fun _ _ => "sig") "secret" evR1 "sig").1.carts.map
      Cart.products = [[]] := by
  refine ⟨rfl, rfl, ?_⟩
  simp [webhookHandler, stDone, recDone, evR1, stringifyEvent, updateFirst,
    clearCartDoc, List.find?]

/-- C2: the claim says completed, failed and cancelled records are terminal,
that a non-success report moves a record to failed only from pending, and
that a success report never moves a cancelled record to completed. The code
updates unconditionally: a success report moves the cancelled record R1 to
completed, and a failure report moves the completed record R2 to failed. -/
theorem C2_terminal_status_overwritten :
    stTerm.checkouts.map CheckoutRecord.status = [.cancelled, .completed] ∧
    (verifyPayment stTerm "R1" payR1succ).1.checkouts.map CheckoutRecord.status
      = [.completed, .completed] ∧
    (verifyPayment stTerm "R2" payR2fail).1.checkouts.map CheckoutRecord.status
      = [.cancelled, .failed] := by
  refine ⟨rfl, ?_, ?_⟩ <;>
    simp [verifyPayment, stTerm, recDone, payR1succ, payR2fail, updateFirst,
      clearCartDoc, List.find?]

/-- C4, counterexample: the claim says the total stored on the new checkout
record equals the sum over the snapshot line items of quantity times
snapshot unit price. The code copies the cart's stored total instead: with a
stale cart total of 30 and a snapshot of two units at the current price 10,
initialization stores 30 while the snapshot sums to 20. -/
theorem C4_stored_total_not_snapshot_sum :
    (initializeCheckout stStale 1 "e" "addr" "paystack" gwOk).1.checkouts.map
      (fun r => (r.totalPrice, specSnapshotTotal r.items)) = [(30, 20)] ∧
    ((30 : ℚ) ≠ 20) := by
  constructor
  · simp [initializeCheckout, stStale, cartStale, gwOk, buildSnapshot,
      buildPaymentData, specSnapshotTotal, freshCheckoutId, List.find?]
    norm_num
  · norm_num

/-- C4, amended: on every successful initialization the total stored on the
new checkout record is the cart's stored total (copied, not recomputed from
the snapshot), and the amount sent to the gateway is that same total
multiplied by 100 and rounded to the nearest integer. -/
theorem C4_amended_total_copied_from_cart (s : St) (u : Nat)
    (email sa pm : String) (gw : PaymentData → Option GatewayInitResp)
    (cart : Cart) (hc : s.carts.find? (fun c => c.user == u) = some cart)
    (hs : (initializeCheckout s u email sa pm gw).2.success = true) :
    (initializeCheckout s u email sa pm gw).1.checkouts.map
        CheckoutRecord.totalPrice
      = s.checkouts.map CheckoutRecord.totalPrice ++ [cart.totalPrice] ∧
    (buildPaymentData email u cart).amount = jsRound (cart.totalPrice * 100) := by
  refine ⟨?_, rfl⟩
  by_cases h1 : (sa == "" || pm == "") = true
  · simp [initializeCheckout, h1] at hs
  · by_cases h2 : cart.products.isEmpty = true
    · simp [initializeCheckout, h1, hc, h2] at hs
    · cases hsnap : buildSnapshot s.catalog cart.products with
      | none => simp [initializeCheckout, h1, hc, h2, hsnap] at hs
      | some items =>
        cases hgw : gw (buildPaymentData email u cart) with
        | none => simp [initializeCheckout, h1, hc, h2, hsnap, hgw] at hs
        | some pay =>
          simp [initializeCheckout, h1, hc, h2, hsnap, hgw, List.map_append]

/-- Witness for C4: on the stale-cart state the record stores the cart total
30 and the gateway amount is 3000. -/
theorem C4_amended_witness :
    (initializeCheckout stStale 1 "e" "addr" "paystack" gwOk).1.checkouts.map
      CheckoutRecord.totalPrice = [(30 : ℚ)] ∧
    (buildPaymentData "e" 1 cartStale).amount = jsRound ((30 : ℚ) * 100) := by
  have h := C4_amended_total_copied_from_cart stStale 1 "e" "addr" "paystack"
    gwOk cartStale (by rfl)
    (by simp [initializeCheckout, stStale, cartStale, gwOk, buildSnapshot,
      List.find?])
  refine ⟨?_, ?_⟩
  · simpa [stStale, cartStale] using h.1
  · simpa [cartStale] using h.2

/-- C5: initialization persists a checkout record only when it succeeds: an
absent or empty cart is rejected with the empty-cart error and the state is
untouched, and a gateway failure aborts with an unsuccessful response and
the state untouched - in both cases no record is created and the cart is
unchanged. -/
theorem C5_init_failure_persists_nothing (s : St) (u : Nat)
    (email sa pm : String) (gw : PaymentData → Option GatewayInitResp) :
    ((sa == "") = false → (pm == "") = false →
      (s.carts.find? (fun c => c.user == u) = none ∨
        ∃ c, s.carts.find? (fun c => c.user == u) = some c ∧ c.products = []) →
      initializeCheckout s u email sa pm gw
        = (s, ⟨400, false, some "Cart is empty"⟩)) ∧
    ((∀ pd, gw pd = none) →
      (initializeCheckout s u email sa pm gw).1 = s ∧
      (initializeCheckout s u email sa pm gw).2.success = false) := by
  constructor
  · intro h1 h2 h3
    rcases h3 with h | ⟨c, hc, hcp⟩
    · simp [initializeCheckout, h1, h2, h]
    · simp [initializeCheckout, h1, h2, hc, hcp]
  · intro hgw
    by_cases h1 : (sa == "" || pm == "") = true
    · constructor <;> simp [initializeCheckout, h1]
    · cases hfind : s.carts.find? (fun c => c.user == u) with
      | none => constructor <;> simp [initializeCheckout, h1, hfind]
      | some cart =>
        by_cases h2 : cart.products.isEmpty = true
        · constructor <;> simp [initializeCheckout, h1, hfind, h2]
        · cases hsnap : buildSnapshot s.catalog cart.products with
          | none =>
            constructor <;> simp [initializeCheckout, h1, hfind, h2, hsnap]
          | some items =>
            constructor <;>
              simp [initializeCheckout, h1, hfind, h2, hsnap, hgw]

/-- Witness for C5: an existing but empty cart is rejected with the
empty-cart error, and a failing gateway on a nonempty cart leaves the state
untouched with an unsuccessful response. -/
theorem C5_witness :
    initializeCheckout stEmptyCart 1 "e" "addr" "paystack" gwOk
      = (stEmptyCart, ⟨400, false, some "Cart is empty"⟩) ∧
    (initializeCheckout stStale 1 "e" "addr" "paystack" (fun _ => none)).1
      = stStale ∧
    (initializeCheckout stStale 1 "e" "addr" "paystack" (fun _ => none)).2.success
      = false := by
  refine ⟨?_, ?_, ?_⟩
  · exact (C5_init_failure_persists_nothing stEmptyCart 1 "e" "addr" "paystack"
      gwOk).1 (by decide) (by decide) (Or.inr ⟨⟨1, 1, [], 0⟩, rfl, rfl⟩)
  · exact ((C5_init_failure_persists_nothing stStale 1 "e" "addr" "paystack"
      (fun _ => none)).2 (fun _ => rfl)).1
  · exact ((C5_init_failure_persists_nothing stStale 1 "e" "addr" "paystack"
      (fun _ => none)).2 (fun _ => rfl)).2

/-- C6: a webhook request whose signature header differs from the HMAC of
the serialized body under the shared secret is rejected with a 400 response
and the state is returned untouched - the signature check precedes every
persistence operation. -/
theorem C6_invalid_signature_rejected (s : St)
    (hmac : String → String → String) (secret : String) (body : WebhookEvent)
    (sig : String)
    (h : (hmac secret (stringifyEvent body) == sig) = false) :
    webhookHandler s hmac secret body sig
      = (s, ⟨400, false, some "Invalid signature"⟩) := by
  unfold webhookHandler
  rw [if_pos h]

/-- Witness for C6: a mismatching signature on the redelivered event is
rejected and mutates nothing. -/
theorem C6_witness :
    webhookHandler stDone (fun _ _ => "a") "k" evR1 "b"
      = (stDone, ⟨400, false, some "Invalid signature"⟩) :=
  C6_invalid_signature_rejected stDone (fun _ _ => "a") "k" evR1 "b" (by decide)

/-- C7: cancellation is a 404 when no record matches id and owner, a 400
naming the record's current status when it is not pending (leaving the state
untouched), and in every case - including a successful cancellation - the
carts are untouched. -/
theorem C7_cancel_guards_and_cart_frame (s : St) (cid u : Nat) :
    (cancelCheckout s cid u).1.carts = s.carts ∧
    (s.checkouts.find? (fun r => r.id == cid && r.user == u) = none →
      cancelCheckout s cid u = (s, ⟨404, false, some "Checkout not found"⟩)) ∧
    (∀ r, s.checkouts.find? (fun r => r.id == cid && r.user == u) = some r →
      r.status ≠ CheckoutStatus.pending →
      cancelCheckout s cid u
        = (s, ⟨400, false,
            some ("Cannot cancel checkout with status: " ++ r.status.str)⟩)) := by
  refine ⟨?_, ?_, ?_⟩
  · cases hf : s.checkouts.find? (fun r => r.id == cid && r.user == u) with
    | none => simp [cancelCheckout, hf]
    | some r =>
      by_cases hp : r.status = CheckoutStatus.pending <;>
        simp [cancelCheckout, hf, hp]
  · intro h
    simp [cancelCheckout, h]
  · intro r hr hp
    simp [cancelCheckout, hr, hp]

/-- Witness for C7: cancelling the completed record 2 is rejected with a 400
naming the status and leaves the carts untouched. -/
theorem C7_witness :
    (cancelCheckout stTerm 2 1).1.carts = stTerm.carts ∧
    cancelCheckout stTerm 2 1
      = (stTerm, ⟨400, false,
          some "Cannot cancel checkout with status: completed"⟩) := by
  have h := C7_cancel_guards_and_cart_frame stTerm 2 1
  refine ⟨h.1, ?_⟩
  have h2 := h.2.2 { recDone with id := 2, paymentReference := "R2" }
    (by rfl) (by decide)
  simpa [recDone, CheckoutStatus.str] using h2

/-- C8: the stored line-item snapshot and total of every checkout record are
never re-derived: both confirmation paths preserve every record's items and
total, a catalog price update leaves the checkout collection untouched, and
retrieval returns the stored record unchanged. -/
theorem C8_snapshot_never_rederived (s : St) (reference : String)
    (payment : GatewayVerifyData) (hmac : String → String → String)
    (secret sig : String) (body : WebhookEvent) (pid : Nat) (newPrice : ℚ)
    (cid u : Nat) :
    (verifyPayment s reference payment).1.checkouts.map
        (fun r => (r.items, r.totalPrice))
      = s.checkouts.map (fun r => (r.items, r.totalPrice)) ∧
    (webhookHandler s hmac secret body sig).1.checkouts.map
        (fun r => (r.items, r.totalPrice))
      = s.checkouts.map (fun r => (r.items, r.totalPrice)) ∧
    (updateProductPrice s pid newPrice).1.checkouts = s.checkouts ∧
    getCheckoutById s cid u
      = s.checkouts.find? (fun r => r.id == cid && r.user == u) := by
  refine ⟨?_, ?_, ?_, rfl⟩
  · by_cases h0 : (reference == "") = true
    · simp [verifyPayment, h0]
    · by_cases h1 : (payment.status == "success") = true
      · cases hf : s.checkouts.find? (fun r => r.paymentReference == reference) with
        | none => simp [verifyPayment, h0, h1, hf]
        | some r =>
          simp [verifyPayment, h0, h1, hf]
          apply updateFirst_map_eq
          intro a
          rfl
      · simp [verifyPayment, h0, h1]
        apply updateFirst_map_eq
        intro a
        rfl
  · by_cases h0 : (hmac secret (stringifyEvent body) == sig) = false
    · simp [webhookHandler, h0]
    · by_cases h1 : (body.event == "charge.success") = true
      · cases hf : s.checkouts.find?
            (fun r => r.paymentReference == body.data.reference) with
        | none => simp [webhookHandler, h0, h1, hf]
        | some r =>
          simp [webhookHandler, h0, h1, hf]
          apply updateFirst_map_eq
          intro a
          rfl
      · simp [webhookHandler, h0, h1]
  · cases hf : s.catalog.find? (fun p => p.id == pid) with
    | none => simp [updateProductPrice, hf]
    | some p => simp [updateProductPrice, hf]

/-- The wishlist toggle never touches the catalog. -/
theorem addToWishlist_catalog_eq (s : St) (u pid : Nat) :
    (addToWishlist s u pid).1.catalog = s.catalog := by
  cases hp : s.catalog.find? (fun p => p.id == pid) with
  | none => simp [addToWishlist, hp]
  | some p =>
    cases hw : s.wishlists.find? (fun w => w.user == u) with
    | none => simp [addToWishlist, hp, hw]
    | some w =>
      by_cases h : w.products.any (fun e => e.product == pid) = true <;>
        simp [addToWishlist, hp, hw, h]

/-- One wishlist toggle flips membership of the product (when the product
exists in the catalog). -/
theorem wishlistHas_addToWishlist_flip (s : St) (u pid : Nat) (p : Product)
    (hp : s.catalog.find? (fun x => x.id == pid) = some p) :
    wishlistHas (addToWishlist s u pid).1 u pid = !(wishlistHas s u pid) := by
  cases hw : s.wishlists.find? (fun w => w.user == u) with
  | none =>
    have hres : (addToWishlist s u pid).1.wishlists
        = s.wishlists ++ [{ user := u, products := [{ product := pid }] }] := by
      simp [addToWishlist, hp, hw]
    simp [wishlistHas, hres, hw, find?_append_of_none _ _ _ hw, List.find?_cons]
  | some w =>
    have hwu := List.find?_some hw
    by_cases h : w.products.any (fun e => e.product == pid) = true
    · have hres : (addToWishlist s u pid).1.wishlists
          = updateFirst (fun x => x.user == u)
              (fun x => { x with products :=
                w.products.filter (fun e => !(e.product == pid)) })
              s.wishlists := by
        simp [addToWishlist, hp, hw, h]
      have hfind := find?_updateFirst (fun x => x.user == u)
        (fun x => { x with products :=
          w.products.filter (fun e => !(e.product == pid)) })
        s.wishlists w hw (by simpa using hwu)
      simp [wishlistHas, hres, hfind, hw, h, any_filter_not]
    · have hres : (addToWishlist s u pid).1.wishlists
          = updateFirst (fun x => x.user == u)
              (fun x => { x with products :=
                w.products ++ [{ product := pid }] })
              s.wishlists := by
        simp [addToWishlist, hp, hw, h]
      have hfind := find?_updateFirst (fun x => x.user == u)
        (fun x => { x with products := w.products ++ [{ product := pid }] })
        s.wishlists w hw (by simpa using hwu)
      simp [wishlistHas, hres, hfind, hw, h, List.any_append]

/-- C9: the wishlist add operation is a toggle: it adds the product when
absent, removes it when present, and two calls in sequence return the
membership to its original state. -/
theorem C9_wishlist_toggle_roundtrip (s : St) (u pid : Nat) (p : Product)
    (hp : s.catalog.find? (fun x => x.id == pid) = some p) :
    (wishlistHas s u pid = false →
      wishlistHas (addToWishlist s u pid).1 u pid = true) ∧
    (wishlistHas s u pid = true →
      wishlistHas (addToWishlist s u pid).1 u pid = false) ∧
    wishlistHas (addToWishlist (addToWishlist s u pid).1 u pid).1 u pid
      = wishlistHas s u pid := by
  have h1 := wishlistHas_addToWishlist_flip s u pid p hp
  have hp2 : (addToWishlist s u pid).1.catalog.find? (fun x => x.id == pid)
      = some p := by rw [addToWishlist_catalog_eq]; exact hp
  have h2 := wishlistHas_addToWishlist_flip (addToWishlist s u pid).1 u pid p hp2
  refine ⟨fun h => by simp [h1, h], fun h => by simp [h1, h], ?_⟩
  rw [h2, h1, Bool.not_not]

/-- Witness for C9: toggling product 1 into an absent wishlist adds it and a
second toggle returns membership to its original (absent) state. -/
theorem C9_witness :
    wishlistHas (addToWishlist stNoWish 1 1).1 1 1 = true ∧
    wishlistHas (addToWishlist (addToWishlist stNoWish 1 1).1 1 1).1 1 1
      = wishlistHas stNoWish 1 1 := by
  have h := C9_wishlist_toggle_roundtrip stNoWish 1 1 ⟨1, "A", 10, 5, ["a"]⟩
    (by rfl)
  exact ⟨h.1 (by rfl), h.2.2⟩

/-- C10: adding a product that is already a line item of the cart (within
stock) replaces that line's quantity with the requested quantity - it does
not add to it - and the number of line items is unchanged. -/
theorem C10_addToCart_existing_line_replaced (s : St) (u pid qty : Nat)
    (p : Product) (c : Cart)
    (hp : s.catalog.find? (fun x => x.id == pid) = some p)
    (hstock : ¬ p.stock < qty)
    (hc : s.carts.find? (fun x => x.user == u) = some c)
    (hmem : c.products.any (fun it => it.product == pid) = true) :
    ∃ c', (addToCart s u pid qty).1.carts.find? (fun x => x.user == u) = some c'
      ∧ c'.products.length = c.products.length
      ∧ c'.products.find? (fun it => it.product == pid)
          = some { product := pid, quantity := qty } := by
  have hcu := List.find?_some hc
  have hres : (addToCart s u pid qty).1.carts
      = updateFirst (fun x => x.user == u)
          (fun x => { x with
            products := (addItemAndTotal p pid qty c.products).1,
            totalPrice := (addItemAndTotal p pid qty c.products).2 })
          s.carts := by
    simp [addToCart, hp, hstock, hc]
  have hprods : (addItemAndTotal p pid qty c.products).1
      = updateFirst (fun it => it.product == pid)
          (fun it => { it with quantity := qty }) c.products := by
    simp [addItemAndTotal, hmem]
  obtain ⟨e, he⟩ := any_imp_find?_isSome _ _ hmem
  have hep : e.product = pid := by simpa using List.find?_some he
  have hf2 := find?_updateFirst (fun it => it.product == pid)
    (fun it => { it with quantity := qty }) c.products e he
    (by simpa using List.find?_some he)
  refine ⟨⟨c.id, c.user, (addItemAndTotal p pid qty c.products).1,
    (addItemAndTotal p pid qty c.products).2⟩, ?_, ?_, ?_⟩
  · rw [hres]
    exact find?_updateFirst _ _ s.carts c hc (by simpa using hcu)
  · simp [hprods, updateFirst_length]
  · simp only [hprods]
    rw [hf2]
    cases e with
    | mk ep eq2 =>
      simp at hep
      simp [hep]

/-- Witness for C10: re-adding product 1 with quantity 3 to a cart whose
line for product 1 had quantity 1 leaves one line, now with quantity 3. -/
theorem C10_witness :
    ((addToCart stHasLine 1 1 3).1.carts.find? (fun x => x.user == 1)).map
      (fun c => (c.products.length, c.products.find? (fun it => it.product == 1)))
      = some (1, some { product := 1, quantity := 3 }) := by
  obtain ⟨c', h1, h2, h3⟩ := C10_addToCart_existing_line_replaced stHasLine 1 1 3
    ⟨1, "A", 10, 5, ["a"]⟩ ⟨1, 1, [⟨1, 1⟩], 10⟩ (by rfl) (by decide) (by rfl)
    (by rfl)
  rw [h1]
  simp [h2, h3]

end TechNest
